import Mathlib

/-!
Shallow embedding of the `rust-id3` ID3v2 tag parser (`src/main.rs`) and a
verification of the specified properties of its byte cursor, header decoders,
frame decoders and flag translation.

Modelling conventions:
* A byte source (`std::fs::File` behind the `ByteReader` trait) is an in-memory
  list of bytes together with a cursor position (`ByteStream`).
* Machine integers are `Nat`; the parser's arithmetic (`<< 21` sums of byte
  values, big-endian recombination) never reaches `2 ^ 32`, so no wrap-around
  modelling is needed.
* Fallible Rust code returning `Result` is modelled with `PResult`; a Rust
  panic (`todo!`, slice index out of bounds) is the distinct `PResult.panicked`
  outcome, which is not an error value a caller could receive.
-/

/-- A seekable in-memory byte source: the backing bytes and the cursor
position. Models the `std::io::Read + Seek` value handed to the parser. -/
structure ByteStream where
  data : List Nat
  pos : Nat
deriving DecidableEq

/-- The error outcomes the embedded code can actually produce: seeking to a
position before the start of the stream is the only operation in `main.rs`
whose `Result` can be an `Err` on an in-memory source. -/
inductive Err where
  | seekOutOfRange
deriving DecidableEq

/-- The ways the embedded Rust code can halt with a panic rather than return. -/
inductive PanicKind where
  /-- the message of `todo!("Compressed frames")` at `main.rs:314` -/
  | unimplementedCompressed
  /-- the message of `todo!("Encrypted frames")` at `main.rs:318` -/
  | unimplementedEncrypted
  /-- indexing `content[0]` on an empty body buffer at `main.rs:398` -/
  | indexOutOfBounds
  /-- artifact of the fuelled loop embedding; unreachable with the fuel used -/
  | outOfFuel
deriving DecidableEq

/-- Outcome of running a piece of the parser: a normal return, an `Err`
propagated through `?`, or a Rust panic aborting the process. -/
inductive PResult (α : Type) where
  | ok : α → PResult α
  | err : Err → PResult α
  | panicked : PanicKind → PResult α
deriving DecidableEq

/-- First `n` bytes of `l`, zero-padded to length `n` when `l` is shorter:
the contents of a `vec![0; n]` buffer after a single `read` call copied
`min n l.length` bytes into its front. -/
def takeZ : Nat → List Nat → List Nat
  | 0, _ => []
  | n + 1, [] => 0 :: takeZ n []
  | n + 1, a :: l => a :: takeZ n l

/-- Number of bytes a single `read` call transfers: `min n l.length` where
`l` is what remains of the source. The cursor advances by this amount. -/
def readCount : Nat → List Nat → Nat
  | 0, _ => 0
  | _ + 1, [] => 0
  | n + 1, _ :: l => readCount n l + 1

/-- `ByteReader::read_bytes` for `T: Read + Seek` (`main.rs:37-42`): allocate
`vec![0; size]`, issue one `read`, and return the buffer without checking how
many bytes were actually transferred.  On an in-memory source the single call
reads `min size remaining` bytes, so a short source yields a zero-padded
buffer and no error. -/
def read_bytes (s : ByteStream) (size : Nat) : List Nat × ByteStream :=
  (takeZ size (s.data.drop s.pos),
   ⟨s.data, s.pos + readCount size (s.data.drop s.pos)⟩)

/-- `ByteReader::seek` with `SeekFrom::Current(delta)` (`main.rs:44-46`):
repositions the cursor; an `io::Error` results iff the target would be
before the start of the stream. -/
def seekCurrent (s : ByteStream) (delta : Int) : Except Err ByteStream :=
  if (s.pos : Int) + delta < 0 then .error .seekOutOfRange
  else .ok ⟨s.data, ((s.pos : Int) + delta).toNat⟩

/-- `ByteReader::read_u8` (`main.rs:12-14`). -/
def read_u8 (s : ByteStream) : Nat × ByteStream :=
  let r := read_bytes s 1
  (r.1.getD 0 0, r.2)

/-- `ByteReader::read_u16` (`main.rs:16-18`): big-endian recombination. -/
def read_u16 (s : ByteStream) : Nat × ByteStream :=
  let r := read_bytes s 2
  (r.1.getD 0 0 * 256 + r.1.getD 1 0, r.2)

/-- `ByteReader::read_u32` (`main.rs:20-22`): big-endian recombination. -/
def read_u32 (s : ByteStream) : Nat × ByteStream :=
  let r := read_bytes s 4
  (r.1.getD 0 0 * 2 ^ 24 + r.1.getD 1 0 * 2 ^ 16 + r.1.getD 2 0 * 2 ^ 8 +
     r.1.getD 3 0, r.2)

/-- `ByteReader::read_u32_syncsafe` (`main.rs:24-33`): the source shifts each
full byte by 21/14/7/0 and sums; note that it does not mask any byte to its
low 7 bits. -/
def read_u32_syncsafe (s : ByteStream) : Nat × ByteStream :=
  let r := read_bytes s 4
  (r.1.getD 0 0 <<< 21 + r.1.getD 1 0 <<< 14 + r.1.getD 2 0 <<< 7 +
     r.1.getD 3 0, r.2)

/-- Substitution of maximal subparts of ill-formed sequences, as performed by
Rust's `String::from_utf8_lossy`: is `b` a UTF-8 continuation byte. -/
def isCont (b : Nat) : Bool := 0x80 ≤ b && b ≤ 0xBF

/-- Admissible second byte of a three-byte UTF-8 sequence with lead `b`. -/
def utf8Second3 (b c : Nat) : Bool :=
  (b == 0xE0 && 0xA0 ≤ c && c ≤ 0xBF) ||
  (0xE1 ≤ b && b ≤ 0xEC && isCont c) ||
  (b == 0xED && 0x80 ≤ c && c ≤ 0x9F) ||
  (0xEE ≤ b && b ≤ 0xEF && isCont c)

/-- Admissible second byte of a four-byte UTF-8 sequence with lead `b`. -/
def utf8Second4 (b c : Nat) : Bool :=
  (b == 0xF0 && 0x90 ≤ c && c ≤ 0xBF) ||
  (0xF1 ≤ b && b ≤ 0xF3 && isCont c) ||
  (b == 0xF4 && 0x80 ≤ c && c ≤ 0x8F)

/-- Worker for `utf8DecodeLossy`.  The first argument is fuel that decreases
by one per decoded symbol while each symbol consumes at least one input byte,
so fuel equal to the input length (as supplied by `utf8DecodeLossy`) is never
exhausted; the recursion is structural on the fuel. -/
def utf8LossyGo : Nat → List Nat → List Nat
  | 0, _ => []
  | _ + 1, [] => []
  | fuel + 1, b :: l =>
    if b ≤ 0x7F then b :: utf8LossyGo fuel l
    else if 0xC2 ≤ b && b ≤ 0xDF then
      match l with
      | c :: l2 =>
        if isCont c then (b % 0x20 * 64 + c % 0x40) :: utf8LossyGo fuel l2
        else 0xFFFD :: utf8LossyGo fuel (c :: l2)
      | [] => [0xFFFD]
    else if 0xE0 ≤ b && b ≤ 0xEF then
      match l with
      | c1 :: l2 =>
        if utf8Second3 b c1 then
          match l2 with
          | c2 :: l3 =>
            if isCont c2 then
              (b % 0x10 * 4096 + c1 % 0x40 * 64 + c2 % 0x40) ::
                utf8LossyGo fuel l3
            else 0xFFFD :: utf8LossyGo fuel (c2 :: l3)
          | [] => [0xFFFD]
        else 0xFFFD :: utf8LossyGo fuel (c1 :: l2)
      | [] => [0xFFFD]
    else if 0xF0 ≤ b && b ≤ 0xF4 then
      match l with
      | c1 :: l2 =>
        if utf8Second4 b c1 then
          match l2 with
          | c2 :: l3 =>
            if isCont c2 then
              match l3 with
              | c3 :: l4 =>
                if isCont c3 then
                  (b % 8 * 262144 + c1 % 0x40 * 4096 + c2 % 0x40 * 64 +
                     c3 % 0x40) :: utf8LossyGo fuel l4
                else 0xFFFD :: utf8LossyGo fuel (c3 :: l4)
              | [] => [0xFFFD]
            else 0xFFFD :: utf8LossyGo fuel (c2 :: l3)
          | [] => [0xFFFD]
        else 0xFFFD :: utf8LossyGo fuel (c1 :: l2)
      | [] => [0xFFFD]
    else 0xFFFD :: utf8LossyGo fuel l

/-- `String::from_utf8_lossy` as a total function from bytes to a list of
Unicode code points: well-formed sequences decode normally, and each maximal
subpart of an ill-formed sequence becomes one replacement character U+FFFD.
The per-width second-byte ranges follow Rust's `run_utf8_validation`. -/
def utf8DecodeLossy (l : List Nat) : List Nat := utf8LossyGo l.length l

/-- Tag-level header flags (`ID3HeaderFlags`, `main.rs:150-156`), as an
immutable record of the three defined bits. -/
structure ID3HeaderFlags where
  unsynchronisation : Bool
  extended_header : Bool
  experimental : Bool
deriving DecidableEq

/-- `bitflags`' `from_bits_truncate` for `ID3HeaderFlags`: keep the defined
bits 7, 6, 5 of the flag byte and discard the rest. -/
def ID3HeaderFlags.from_bits_truncate (n : Nat) : ID3HeaderFlags :=
  ⟨n.testBit 7, n.testBit 6, n.testBit 5⟩

/-- The version-normalized frame-header flag set (`ID3FrameHeaderFlags`,
`main.rs:251-263`). -/
structure ID3FrameHeaderFlags where
  tag_alter_preserved : Bool
  file_alter_preserved : Bool
  read_only : Bool
  grouping : Bool
  compressed : Bool
  encrypted : Bool
  unsynchronisation : Bool
  data_length_indicator : Bool
deriving DecidableEq

/-- `ID3FrameHeaderFlags::empty()`. -/
def ID3FrameHeaderFlags.empty : ID3FrameHeaderFlags :=
  ⟨false, false, false, false, false, false, false, false⟩

/-- `from_bits_truncate` for the v2.4 frame flag word: the defined bits are
14, 13, 12 (status) and 6, 3, 2, 1, 0 (format), per `main.rs:254-261`. -/
def ID3FrameHeaderFlags.from_bits_truncate (n : Nat) : ID3FrameHeaderFlags :=
  ⟨n.testBit 14, n.testBit 13, n.testBit 12, n.testBit 6, n.testBit 3,
   n.testBit 2, n.testBit 1, n.testBit 0⟩

/-- The v2.3 frame flag word (`ID3FrameHeaderFlagsV3`, `main.rs:225-234`). -/
structure ID3FrameHeaderFlagsV3 where
  tag_alter_preserved : Bool
  file_alter_preserved : Bool
  read_only : Bool
  compressed : Bool
  encrypted : Bool
  grouping : Bool
deriving DecidableEq

/-- `from_bits_truncate` for the v2.3 frame flag word: defined bits are
15, 14, 13 and 7, 6, 5, per `main.rs:227-232`. -/
def ID3FrameHeaderFlagsV3.from_bits_truncate (n : Nat) : ID3FrameHeaderFlagsV3 :=
  ⟨n.testBit 15, n.testBit 14, n.testBit 13, n.testBit 7, n.testBit 6,
   n.testBit 5⟩

/-- The `Into<ID3FrameHeaderFlags>` impl (`main.rs:236-249`): start from the
empty normalized set and copy the six v2.3 flags across; the two v2.4-only
flags are never set. -/
def ID3FrameHeaderFlagsV3.into (f : ID3FrameHeaderFlagsV3) :
    ID3FrameHeaderFlags :=
  { ID3FrameHeaderFlags.empty with
    tag_alter_preserved := f.tag_alter_preserved
    file_alter_preserved := f.file_alter_preserved
    read_only := f.read_only
    compressed := f.compressed
    encrypted := f.encrypted
    grouping := f.grouping }

/-- The flag word interpretation the frame header decoder applies at
`main.rs:293-296`: v2.4 words directly, anything else through the v2.3
layout and its translation. -/
def frameFlagsOf (version : Nat) (w : Nat) : ID3FrameHeaderFlags :=
  if version == 4 then ID3FrameHeaderFlags.from_bits_truncate w
  else (ID3FrameHeaderFlagsV3.from_bits_truncate w).into

/-- `ID3Header` (`main.rs:175-180`). -/
structure ID3Header where
  version : Nat × Nat
  flags : ID3HeaderFlags
  size : Nat
deriving DecidableEq

/-- `ID3Header::read_tag` (`main.rs:212-215`): three bytes, lossily decoded. -/
def ID3Header.read_tag (s : ByteStream) : List Nat × ByteStream :=
  let r := read_bytes s 3
  (utf8DecodeLossy r.1, r.2)

/-- `ID3Header::new_from_byte_reader` (`main.rs:191-210`).  The comparison of
the leading three bytes against the marker is performed but its result is
discarded: the conditional's body in the source is empty, so a mismatch does
not abort parsing. -/
def ID3Header.new_from_byte_reader (s : ByteStream) :
    PResult (ID3Header × ByteStream) :=
  let r0 := ID3Header.read_tag s
  let _marker_mismatch := decide (r0.1 ≠ [73, 68, 51])
  let r1 := read_u8 r0.2
  let r2 := read_u8 r1.2
  let version := (r1.1, r2.1)
  let r3 := read_u8 r2.2
  let flags := ID3HeaderFlags.from_bits_truncate r3.1
  let r4 := read_u32_syncsafe r3.2
  .ok (⟨version, flags, r4.1⟩, r4.2)

/-- `ID3ExtendedHeader` (`main.rs:158-161`). -/
structure ID3ExtendedHeader where
  size : Nat
deriving DecidableEq

/-- `ID3ExtendedHeader::new_from_byte_reader` (`main.rs:166-172`). -/
def ID3ExtendedHeader.new_from_byte_reader (s : ByteStream) :
    PResult (ID3ExtendedHeader × ByteStream) :=
  let r := read_u32_syncsafe s
  .ok (⟨r.1⟩, r.2)

/-- `ID3FrameHeader` (`main.rs:265-273`); `id` is the lossily decoded
identifier string as a list of code points. -/
structure ID3FrameHeader where
  id : List Nat
  size : Nat
  header_size : Nat
  uncompressed_body_size : Option Nat
  grouping_id : Option Nat
  flags : ID3FrameHeaderFlags
deriving DecidableEq

/-- `str::starts_with("T")` on the decoded identifier: its first code point
is `T` (84). -/
def startsWithT (id : List Nat) : Bool :=
  match id with
  | c :: _ => c == 84
  | [] => false

/-- `ID3FrameHeader::is_text_frame` (`main.rs:331-333`): identifier starts
with `T` and is not exactly `TXXX` (code points 84, 88, 88, 88). -/
def ID3FrameHeader.is_text_frame (h : ID3FrameHeader) : Bool :=
  startsWithT h.id && h.id != [84, 88, 88, 88]

/-- `ID3FrameHeader::new_from_byte_reader` (`main.rs:277-329`): read the
4-byte candidate identifier; a zero first byte means padding, so rewind 4 and
return no frame.  Otherwise the size field is syncsafe iff `version == 4`,
the 16-bit flag word is interpreted through `frameFlagsOf`, the optional
grouping byte and data-length indicator are consumed as dictated by the
normalized flags, and a set Compressed or Encrypted flag hits a `todo!`
panic. -/
def ID3FrameHeader.new_from_byte_reader (s : ByteStream) (version : Nat) :
    PResult (Option ID3FrameHeader × ByteStream) :=
  let r0 := read_bytes s 4
  if r0.1.getD 0 0 == 0 then
    match seekCurrent r0.2 (-4) with
    | .error e => .err e
    | .ok s2 => .ok (none, s2)
  else
    let id := utf8DecodeLossy r0.1
    let r1 := if version == 4 then read_u32_syncsafe r0.2 else read_u32 r0.2
    let r2 := read_u16 r1.2
    let flags := frameFlagsOf version r2.1
    let grouping_id := if flags.grouping then some (read_u8 r2.2).1 else none
    let header_size1 := if flags.grouping then 10 + 1 else 10
    let s3 := if flags.grouping then (read_u8 r2.2).2 else r2.2
    let uncompressed_body_size :=
      if flags.data_length_indicator then some (read_u32_syncsafe s3).1
      else none
    let header_size2 :=
      if flags.data_length_indicator then header_size1 + 4 else header_size1
    let s4 :=
      if flags.data_length_indicator then (read_u32_syncsafe s3).2 else s3
    if flags.compressed then .panicked .unimplementedCompressed
    else if flags.encrypted then .panicked .unimplementedEncrypted
    else .ok (some ⟨id, r1.1, header_size2, uncompressed_body_size,
                    grouping_id, flags⟩, s4)

/-- `ID3Frame` (`main.rs:337-347`): text frames carry the decoded string
(as code points), everything else keeps the raw body. -/
inductive ID3Frame where
  | text (header : ID3FrameHeader) (content : List Nat)
  | unknown (header : ID3FrameHeader) (body : List Nat)
deriving DecidableEq

/-- The scan loop of `ID3Frame::text_frame_content` (`main.rs:404-411`):
index of the first zero byte, or the length when none occurs. -/
def zeroScanEnd : List Nat → Nat
  | [] => 0
  | b :: l => if b == 0 then 0 else zeroScanEnd l + 1

/-- `ID3Frame::text_frame_content` (`main.rs:397-417`).  Indexing `content[0]`
of an empty body buffer is a Rust panic, modelled as `none`.  Encodings 0x00
and 0x03 take the bytes before the first zero byte (the whole remainder when
no zero occurs) and decode them lossily; any other encoding byte yields the
empty string. -/
def text_frame_content (content : List Nat) : Option (List Nat) :=
  match content with
  | [] => none
  | enc :: text =>
    if enc == 0x00 || enc == 0x03 then
      some (utf8DecodeLossy (text.take (zeroScanEnd text)))
    else
      some []

/-- `ID3Frame::new_from_byte_reader` (`main.rs:350-374`): decode a header;
on padding (`None`) rewind another 4 bytes and stop; otherwise read `size`
body bytes and classify. -/
def ID3Frame.new_from_byte_reader (s : ByteStream) (version : Nat) :
    PResult (Option ID3Frame × ByteStream) :=
  match ID3FrameHeader.new_from_byte_reader s version with
  | .err e => .err e
  | .panicked k => .panicked k
  | .ok (some header, s1) =>
    let r := read_bytes s1 header.size
    if header.is_text_frame then
      match text_frame_content r.1 with
      | some t => .ok (some (.text header t), r.2)
      | none => .panicked .indexOutOfBounds
    else .ok (some (.unknown header r.1), r.2)
  | .ok (none, s1) =>
    match seekCurrent s1 (-4) with
    | .error e => .err e
    | .ok s2 => .ok (none, s2)

/-- `ID3Body` (`main.rs:108-111`). -/
structure ID3Body where
  frames : List ID3Frame
deriving DecidableEq

/-- The `while let Some(frame)` loop of `ID3Body::new_from_byte_reader`
(`main.rs:120-131`), with explicit fuel.  Each iteration that produces a
frame strictly advances the cursor (its identifier's first byte was actually
read), and the cursor never exceeds the data length, so fuel
`data.length + 1` makes the out-of-fuel case unreachable. -/
def readFramesLoop (fuel : Nat) (s : ByteStream) (version : Nat) :
    PResult (List ID3Frame × ByteStream) :=
  match fuel with
  | 0 => .panicked .outOfFuel
  | fuel + 1 =>
    match ID3Frame.new_from_byte_reader s version with
    | .err e => .err e
    | .panicked k => .panicked k
    | .ok (none, s1) => .ok ([], s1)
    | .ok (some f, s1) =>
      match readFramesLoop fuel s1 version with
      | .err e => .err e
      | .panicked k => .panicked k
      | .ok (fs, s2) => .ok (f :: fs, s2)

/-- `ID3Body::new_from_byte_reader` (`main.rs:120-131`). -/
def ID3Body.new_from_byte_reader (s : ByteStream) (version : Nat) :
    PResult (ID3Body × ByteStream) :=
  match readFramesLoop (s.data.length + 1) s version with
  | .err e => .err e
  | .panicked k => .panicked k
  | .ok (fs, s1) => .ok (⟨fs⟩, s1)

/-- `ID3` (`main.rs:55-59`). -/
structure ID3 where
  header : ID3Header
  body : ID3Body
deriving DecidableEq

/-- `ID3::new_from_byte_reader` (`main.rs:72-89`): decode the tag header;
when the ExtendedHeader flag is set, decode the extended header and subtract
its size from the local `size` variable.  As in the source, that variable is
never consulted afterwards: the body loop receives only the reader and the
major version. -/
def ID3.new_from_byte_reader (s : ByteStream) : PResult (ID3 × ByteStream) :=
  match ID3Header.new_from_byte_reader s with
  | .err e => .err e
  | .panicked k => .panicked k
  | .ok (header, s1) =>
    let step : PResult (Nat × ByteStream) :=
      if header.flags.extended_header then
        match ID3ExtendedHeader.new_from_byte_reader s1 with
        | .err e => .err e
        | .panicked k => .panicked k
        | .ok (ext, s2) => .ok (header.size - ext.size, s2)
      else .ok (header.size, s1)
    match step with
    | .err e => .err e
    | .panicked k => .panicked k
    | .ok (_size, s2) =>
      match ID3Body.new_from_byte_reader s2 header.version.1 with
      | .err e => .err e
      | .panicked k => .panicked k
      | .ok (body, s3) => .ok (⟨header, body⟩, s3)

/-! Helper lemmas about the byte cursor. -/

theorem takeZ_length_append (L R : List Nat) : takeZ L.length (L ++ R) = L := by
  induction L with
  | nil => rfl
  | cons a L ih => simpa [takeZ] using ih

theorem readCount_length_append (L R : List Nat) :
    readCount L.length (L ++ R) = L.length := by
  induction L with
  | nil => rfl
  | cons a L ih => simpa [readCount] using ih

theorem read_bytes_exact (data P L R : List Nat) (pos n : Nat)
    (hdata : data = P ++ L ++ R) (hpos : pos = P.length) (hn : n = L.length) :
    read_bytes ⟨data, pos⟩ n = (L, ⟨data, pos + n⟩) := by
  subst hdata hpos hn
  simp [read_bytes, List.drop_left, takeZ_length_append, readCount_length_append]

theorem getD_zero (a : Nat) (l : List Nat) : (a :: l).getD 0 0 = a := rfl

theorem getD_one (a b : Nat) (l : List Nat) : (a :: b :: l).getD 1 0 = b := rfl

theorem getD_two (a b c : Nat) (l : List Nat) :
    (a :: b :: c :: l).getD 2 0 = c := rfl

theorem getD_three (a b c d : Nat) (l : List Nat) :
    (a :: b :: c :: d :: l).getD 3 0 = d := rfl


theorem takeZ_one (a : Nat) (l : List Nat) : takeZ 1 (a :: l) = [a] := rfl

theorem takeZ_two (a b : Nat) (l : List Nat) : takeZ 2 (a :: b :: l) = [a, b] := rfl

theorem takeZ_four (a b c d : Nat) (l : List Nat) :
    takeZ 4 (a :: b :: c :: d :: l) = [a, b, c, d] := rfl

theorem readCount_one (a : Nat) (l : List Nat) : readCount 1 (a :: l) = 1 := rfl

theorem readCount_two (a b : Nat) (l : List Nat) :
    readCount 2 (a :: b :: l) = 2 := rfl

theorem readCount_four (a b c d : Nat) (l : List Nat) :
    readCount 4 (a :: b :: c :: d :: l) = 4 := rfl

theorem drop_four (a b c d : Nat) (l : List Nat) :
    List.drop 4 (a :: b :: c :: d :: l) = l := rfl

theorem drop_eight (a b c d e f g h : Nat) (l : List Nat) :
    List.drop 8 (a :: b :: c :: d :: e :: f :: g :: h :: l) = l := rfl

theorem drop_ten (a b c d e f g h i j : Nat) (l : List Nat) :
    List.drop 10 (a :: b :: c :: d :: e :: f :: g :: h :: i :: j :: l) = l :=
  rfl

/-- The index the scan loop of `text_frame_content` computes cuts the body at
the first zero byte: taking that many bytes is taking while nonzero. -/
theorem take_zeroScanEnd (l : List Nat) :
    l.take (zeroScanEnd l) = l.takeWhile (fun b => b != 0) := by
  induction l with
  | nil => rfl
  | cons b l ih =>
    by_cases hb : b = 0 <;> simp [zeroScanEnd, List.takeWhile_cons, hb, ih]

/-- C1: the spec claims `readBytes(n)` returns exactly `n` bytes or fails with
`TruncatedInput` when fewer are available, never returning a padded buffer.
The code ignores the count returned by the single `read` call: on a two-byte
source a four-byte read succeeds and hands back the two real bytes followed by
two zero bytes of the untouched buffer, with the cursor advanced only by 2.
This theorem evaluates the embedded code at that failing input. -/
theorem c1_read_bytes_pads_instead_of_failing :
    read_bytes ⟨[1, 2], 0⟩ 4 = ([1, 2, 0, 0], ⟨[1, 2], 2⟩) := rfl

/-- C2: the spec claims that on a zero-prefixed candidate header the decoder
returns no frame with zero net cursor movement, so re-reading 4 bytes yields
the same zero-prefixed value.  The code rewinds twice (once in
`ID3FrameHeader::new_from_byte_reader`, once more in
`ID3Frame::new_from_byte_reader`): from position 4 on a zero-prefixed header
the cursor ends at 0, where re-reading yields the four bytes before the
padding; and when the zero-prefixed header sits at a position below 4, the
second rewind even fails with a seek error instead of returning no frame. -/
theorem c2_termination_rewind_overshoots :
    ID3Frame.new_from_byte_reader ⟨[1, 1, 1, 1, 0, 0, 0, 0], 4⟩ 3 =
      .ok (none, ⟨[1, 1, 1, 1, 0, 0, 0, 0], 0⟩) ∧
    (read_bytes ⟨[1, 1, 1, 1, 0, 0, 0, 0], 0⟩ 4).1 = [1, 1, 1, 1] ∧
    ID3Frame.new_from_byte_reader ⟨[0, 0, 0, 0], 0⟩ 3 = .err .seekOutOfRange :=
  ⟨rfl, rfl, rfl⟩

/-- C10: frame decoding is not total: a frame whose identifier starts with
`T` (and is not `TXXX`) and whose declared body size is 0 makes
`text_frame_content` index the first byte of an empty buffer, a panic rather
than a `Frame` or an error result.  Concretely, a v2.3 `TIT2` frame of
declared size 0. -/
theorem c10_empty_text_frame_panics :
    ID3Frame.new_from_byte_reader ⟨[84, 73, 84, 50, 0, 0, 0, 0, 0, 0], 0⟩ 3 =
      .panicked .indexOutOfBounds := rfl

/-- C4 counterexample: the claim says a frame with the Compressed or
Encrypted flag set makes construction fail with an `UnsupportedFeature`
error result, not a crash.  On a complete v2.3 tag holding one `TIT2` frame
with the v2.3 compressed bit (bit 7) set, the whole decode hits
`todo!("Compressed frames")`: a panic, not an error value — the embedded
error type has no unsupported-feature constructor to return at all. -/
theorem c4_compressed_flag_panic_counterexample :
    ID3.new_from_byte_reader
      ⟨[73, 68, 51, 3, 0, 0, 0, 0, 0, 0,
        84, 73, 84, 50, 0, 0, 0, 0, 0, 128], 0⟩ =
      .panicked .unimplementedCompressed := rfl

/-- C8: the spec claims frame decoding is bounded by the tag header's
declared size minus the extended header's size.  In the code the bound is
computed into a local variable that is never read again, and the frame loop
receives only the reader and version.  Witness tag: declared size 10 and
extended-header size 6 leave 4 bytes for frames, yet the loop happily
decodes a 12-byte `TIT2` frame that extends to byte 26 of the stream. -/
theorem c8_declared_size_not_enforced :
    ID3.new_from_byte_reader
      ⟨[73, 68, 51, 4, 0, 64, 0, 0, 0, 10, 0, 0, 0, 6,
        84, 73, 84, 50, 0, 0, 0, 2, 0, 0, 0, 65], 0⟩ =
      .ok (⟨⟨(4, 0), ⟨false, true, false⟩, 10⟩,
            ⟨[.text ⟨[84, 73, 84, 50], 2, 10, none, none, .empty⟩ [65]]⟩⟩,
           ⟨[73, 68, 51, 4, 0, 64, 0, 0, 0, 10, 0, 0, 0, 6,
             84, 73, 84, 50, 0, 0, 0, 2, 0, 0, 0, 65], 18⟩) := rfl

/-- C5 counterexample: the claim says each byte contributes only its low
7 bits, so `readSyncsafeU32` always yields a 28-bit value.  On input bytes
`80 00 00 00` the code returns `2 ^ 28` — the top bit of the first byte is
not masked — while the claimed formula yields 0, and the result is not below
`2 ^ 28`. -/
theorem c5_syncsafe_counterexample :
    (read_u32_syncsafe ⟨[128, 0, 0, 0], 0⟩).1 = 2 ^ 28 ∧
    128 % 128 * 2 ^ 21 + 0 % 128 * 2 ^ 14 + 0 % 128 * 2 ^ 7 + 0 % 128 = 0 ∧
    ¬(read_u32_syncsafe ⟨[128, 0, 0, 0], 0⟩).1 < 2 ^ 28 := by decide

/-- C7: the tag header decoder compares the first three bytes against the
marker but discards the result: for every choice of the three marker bytes
it returns, without surfacing any error, the header assembled from the
following version pair, flag byte and syncsafe size. -/
theorem c7_marker_mismatch_not_surfaced
    (m1 m2 m3 v1 v2 fl z1 z2 z3 z4 : Nat) (rest : List Nat) :
    ID3Header.new_from_byte_reader
      ⟨m1 :: m2 :: m3 :: v1 :: v2 :: fl :: z1 :: z2 :: z3 :: z4 :: rest, 0⟩ =
      .ok (⟨(v1, v2), ID3HeaderFlags.from_bits_truncate fl,
            z1 <<< 21 + z2 <<< 14 + z3 <<< 7 + z4⟩,
           ⟨m1 :: m2 :: m3 :: v1 :: v2 :: fl :: z1 :: z2 :: z3 :: z4 :: rest,
            10⟩) := rfl

/-- A list all of whose elements are nonzero is untouched by the
nonzero-prefix scan. -/
theorem takeWhile_of_forall_ne_zero (l : List Nat) (h : ∀ b ∈ l, b ≠ 0) :
    l.takeWhile (fun b => b != 0) = l := by
  induction l with
  | nil => rfl
  | cons b l ih =>
    have hb : b ≠ 0 := h b (by simp)
    simp [List.takeWhile_cons, hb, ih (fun x hx => h x (by simp [hx]))]

/-- C5 (amended): `readSyncsafeU32` combines the full eight bits of every
byte, shifted by 21/14/7/0; only when every byte already has its top bit
clear does this coincide with the claimed low-7-bits formula and stay below
`2 ^ 28`. -/
theorem c5_syncsafe_uses_all_eight_bits (b0 b1 b2 b3 : Nat) (rest : List Nat) :
    (read_u32_syncsafe ⟨b0 :: b1 :: b2 :: b3 :: rest, 0⟩).1 =
      b0 * 2 ^ 21 + b1 * 2 ^ 14 + b2 * 2 ^ 7 + b3 ∧
    (b0 < 128 → b1 < 128 → b2 < 128 → b3 < 128 →
      (read_u32_syncsafe ⟨b0 :: b1 :: b2 :: b3 :: rest, 0⟩).1 =
        b0 % 128 * 2 ^ 21 + b1 % 128 * 2 ^ 14 + b2 % 128 * 2 ^ 7 + b3 % 128 ∧
      (read_u32_syncsafe ⟨b0 :: b1 :: b2 :: b3 :: rest, 0⟩).1 < 2 ^ 28) := by
  have hval : (read_u32_syncsafe ⟨b0 :: b1 :: b2 :: b3 :: rest, 0⟩).1 =
      b0 * 2 ^ 21 + b1 * 2 ^ 14 + b2 * 2 ^ 7 + b3 := by
    show b0 <<< 21 + b1 <<< 14 + b2 <<< 7 + b3 =
      b0 * 2 ^ 21 + b1 * 2 ^ 14 + b2 * 2 ^ 7 + b3
    simp [Nat.shiftLeft_eq]
  refine ⟨hval, fun h0 h1 h2 h3 => ⟨?_, ?_⟩⟩
  · rw [hval, Nat.mod_eq_of_lt h0, Nat.mod_eq_of_lt h1, Nat.mod_eq_of_lt h2,
      Nat.mod_eq_of_lt h3]
  · rw [hval]; omega

/-- Witness for C5 (amended) at bytes `01 02 03 04`. -/
theorem c5_syncsafe_uses_all_eight_bits_witness :
    (1 : Nat) < 128 ∧ (2 : Nat) < 128 ∧ (3 : Nat) < 128 ∧ (4 : Nat) < 128 ∧
    ((read_u32_syncsafe ⟨[1, 2, 3, 4], 0⟩).1 =
       1 % 128 * 2 ^ 21 + 2 % 128 * 2 ^ 14 + 3 % 128 * 2 ^ 7 + 4 % 128 ∧
     (read_u32_syncsafe ⟨[1, 2, 3, 4], 0⟩).1 < 2 ^ 28) :=
  ⟨by decide, by decide, by decide, by decide,
   (c5_syncsafe_uses_all_eight_bits 1 2 3 4 []).2
     (by decide) (by decide) (by decide) (by decide)⟩

/-- C9: for encoding byte 0x00 or 0x03 the decoded text is the lossy UTF-8
decoding of the body bytes strictly before the first zero byte; when no zero
byte occurs the entire remainder is decoded (the spec's `[enc, "Test"]`
example included), and invalid sequences become the replacement character
U+FFFD instead of failing. -/
theorem c9_text_frame_decoding (enc : Nat) (text : List Nat)
    (henc : enc = 0 ∨ enc = 3) :
    text_frame_content (enc :: text) =
      some (utf8DecodeLossy (text.takeWhile (fun b => b != 0))) ∧
    ((∀ b ∈ text, b ≠ 0) →
      text_frame_content (enc :: text) = some (utf8DecodeLossy text)) ∧
    text_frame_content [0, 84, 101, 115, 116] = some [84, 101, 115, 116] ∧
    text_frame_content [3, 255, 65] = some [0xFFFD, 65] := by
  have hmain : text_frame_content (enc :: text) =
      some (utf8DecodeLossy (text.take (zeroScanEnd text))) := by
    rcases henc with h | h <;> subst h <;> rfl
  refine ⟨?_, ?_, by decide, by decide⟩
  · rw [hmain, take_zeroScanEnd]
  · intro hz
    rw [hmain, take_zeroScanEnd, takeWhile_of_forall_ne_zero text hz]

/-- Witness for C9 at the spec's missing-terminator example `[0x00, "Test"]`. -/
theorem c9_text_frame_decoding_witness :
    ((0 : Nat) = 0 ∨ (0 : Nat) = 3) ∧
    text_frame_content (0 :: [84, 101, 115, 116]) = some [84, 101, 115, 116] :=
  ⟨Or.inl rfl,
   ((c9_text_frame_decoding 0 [84, 101, 115, 116] (Or.inl rfl)).1).trans
     (by decide)⟩

/-- C4 (amended): a frame whose normalized Compressed or Encrypted flag is
set makes frame-header construction fail fast by hitting the corresponding
`todo!` — the decode diverges with a panic (which aborts the whole tag
decode), not a recoverable skip and not an error result. -/
theorem c4_unsupported_flags_abort_by_panic
    (i1 i2 i3 i4 z1 z2 z3 z4 f1 f2 : Nat) (rest : List Nat) (version : Nat)
    (hid : i1 ≠ 0) :
    ((frameFlagsOf version (f1 * 256 + f2)).compressed = true →
      ID3FrameHeader.new_from_byte_reader
        ⟨i1 :: i2 :: i3 :: i4 :: z1 :: z2 :: z3 :: z4 :: f1 :: f2 :: rest, 0⟩
        version = .panicked .unimplementedCompressed) ∧
    ((frameFlagsOf version (f1 * 256 + f2)).compressed = false →
      (frameFlagsOf version (f1 * 256 + f2)).encrypted = true →
      ID3FrameHeader.new_from_byte_reader
        ⟨i1 :: i2 :: i3 :: i4 :: z1 :: z2 :: z3 :: z4 :: f1 :: f2 :: rest, 0⟩
        version = .panicked .unimplementedEncrypted) := by
  constructor
  · intro hc
    simp [ID3FrameHeader.new_from_byte_reader, read_bytes, read_u8, read_u16,
      read_u32, read_u32_syncsafe, List.drop_zero, takeZ_one, takeZ_two,
      takeZ_four, readCount_one, readCount_two, readCount_four, drop_four,
      drop_eight, getD_zero, getD_one, getD_two, getD_three, apply_ite,
      ite_self, hid, hc]
  · intro hc he
    simp [ID3FrameHeader.new_from_byte_reader, read_bytes, read_u8, read_u16,
      read_u32, read_u32_syncsafe, List.drop_zero, takeZ_one, takeZ_two,
      takeZ_four, readCount_one, readCount_two, readCount_four, drop_four,
      drop_eight, getD_zero, getD_one, getD_two, getD_three, apply_ite,
      ite_self, hid, hc, he]

/-- Witness for C4 (amended): a v2.3 `TIT2` frame whose flag word has the
v2.3 compressed bit (bit 7) set panics during header construction. -/
theorem c4_unsupported_flags_abort_by_panic_witness :
    (84 : Nat) ≠ 0 ∧
    (frameFlagsOf 3 (0 * 256 + 128)).compressed = true ∧
    ID3FrameHeader.new_from_byte_reader
      ⟨[84, 73, 84, 50, 0, 0, 0, 0, 0, 128], 0⟩ 3 =
      .panicked .unimplementedCompressed :=
  ⟨by decide, by decide,
   (c4_unsupported_flags_abort_by_panic 84 73 84 50 0 0 0 0 0 128 [] 3
      (by decide)).1 (by decide)⟩

/-- C3: the frame-header size field is decoded from the four bytes following
the identifier as a syncsafe integer exactly when the declared major version
is 4, and as a plain 32-bit big-endian integer for every other version. -/
theorem c3_frame_size_version_fork
    (i1 i2 i3 i4 z1 z2 z3 z4 f1 f2 : Nat) (rest : List Nat) (version : Nat)
    (h : ID3FrameHeader) (s2 : ByteStream) (hid : i1 ≠ 0)
    (hEq : ID3FrameHeader.new_from_byte_reader
        ⟨i1 :: i2 :: i3 :: i4 :: z1 :: z2 :: z3 :: z4 :: f1 :: f2 :: rest, 0⟩
        version = .ok (some h, s2)) :
    h.size = if version = 4
      then z1 <<< 21 + z2 <<< 14 + z3 <<< 7 + z4
      else z1 * 2 ^ 24 + z2 * 2 ^ 16 + z3 * 2 ^ 8 + z4 := by
  by_cases hv : version = 4
  · subst hv
    simp [ID3FrameHeader.new_from_byte_reader, read_bytes, read_u8, read_u16,
      read_u32, read_u32_syncsafe, takeZ_one, takeZ_two, takeZ_four,
      readCount_one, readCount_two, readCount_four, drop_four, drop_eight,
      getD_zero, getD_one, getD_two, getD_three, hid] at hEq
    by_cases hcp : (frameFlagsOf 4 (f1 * 256 + f2)).compressed = true
    · simp [hcp] at hEq
    · by_cases hen : (frameFlagsOf 4 (f1 * 256 + f2)).encrypted = true
      · simp [hcp, hen] at hEq
      · simp [hcp, hen] at hEq
        obtain ⟨hh, -⟩ := hEq
        subst hh
        simp
  · simp [ID3FrameHeader.new_from_byte_reader, read_bytes, read_u8, read_u16,
      read_u32, read_u32_syncsafe, takeZ_one, takeZ_two, takeZ_four,
      readCount_one, readCount_two, readCount_four, drop_four, drop_eight,
      getD_zero, getD_one, getD_two, getD_three, hid, hv] at hEq
    by_cases hcp : (frameFlagsOf version (f1 * 256 + f2)).compressed = true
    · simp [hcp] at hEq
    · by_cases hen : (frameFlagsOf version (f1 * 256 + f2)).encrypted = true
      · simp [hcp, hen] at hEq
      · simp [hcp, hen] at hEq
        obtain ⟨hh, -⟩ := hEq
        subst hh
        simp [hv]

/-- Witness for C3: a v2.3 frame header whose size bytes `00 00 01 02`
decode as the plain big-endian value 258. -/
theorem c3_frame_size_version_fork_witness :
    (1 : Nat) ≠ 0 ∧
    ID3FrameHeader.new_from_byte_reader
      ⟨[1, 0, 0, 0, 0, 0, 1, 2, 0, 0], 0⟩ 3 =
      .ok (some ⟨[1, 0, 0, 0], 258, 10, none, none, .empty⟩,
           ⟨[1, 0, 0, 0, 0, 0, 1, 2, 0, 0], 10⟩) ∧
    (⟨[1, 0, 0, 0], 258, 10, none, none, .empty⟩ : ID3FrameHeader).size =
      (if (3 : Nat) = 4 then 0 <<< 21 + 0 <<< 14 + 1 <<< 7 + 2
       else 0 * 2 ^ 24 + 0 * 2 ^ 16 + 1 * 2 ^ 8 + 2) :=
  ⟨by decide, by rfl,
   c3_frame_size_version_fork 1 0 0 0 0 0 1 2 0 0 [] 3
     ⟨[1, 0, 0, 0], 258, 10, none, none, .empty⟩
     ⟨[1, 0, 0, 0, 0, 0, 1, 2, 0, 0], 10⟩ (by decide) (by rfl)⟩


/-- C6: the v2.3 frame-flag word is translated bit-for-bit per the table
(tag-alter 15, file-alter 14, read-only 13, compressed 7, encrypted 6,
grouping 5) into the normalized set; the v2.4 interpretation reads Compressed
from bit 3, so a v2.3 word with bit 7 set normalizes to the same logical flag
as a v2.4 word with bit 3 set; the translation never produces
Unsynchronisation or DataLengthIndicator; and consequently, for every stream
and every version other than 4, a decoded frame header carries no
data-length indicator — that read is never attempted. -/
theorem c6_v3_flag_translation :
    (∀ w : Nat,
      (ID3FrameHeaderFlagsV3.from_bits_truncate w).into.tag_alter_preserved =
          w.testBit 15 ∧
      (ID3FrameHeaderFlagsV3.from_bits_truncate w).into.file_alter_preserved =
          w.testBit 14 ∧
      (ID3FrameHeaderFlagsV3.from_bits_truncate w).into.read_only =
          w.testBit 13 ∧
      (ID3FrameHeaderFlagsV3.from_bits_truncate w).into.compressed =
          w.testBit 7 ∧
      (ID3FrameHeaderFlagsV3.from_bits_truncate w).into.encrypted =
          w.testBit 6 ∧
      (ID3FrameHeaderFlagsV3.from_bits_truncate w).into.grouping =
          w.testBit 5 ∧
      (ID3FrameHeaderFlagsV3.from_bits_truncate w).into.unsynchronisation =
          false ∧
      (ID3FrameHeaderFlagsV3.from_bits_truncate w).into.data_length_indicator =
          false) ∧
    (∀ w : Nat,
      (ID3FrameHeaderFlags.from_bits_truncate w).compressed = w.testBit 3) ∧
    (∀ (s : ByteStream) (version : Nat) (h : ID3FrameHeader)
        (s2 : ByteStream), version ≠ 4 →
      ID3FrameHeader.new_from_byte_reader s version = .ok (some h, s2) →
      h.uncompressed_body_size = none ∧
      h.flags.data_length_indicator = false) := by
  refine ⟨fun w => ⟨rfl, rfl, rfl, rfl, rfl, rfl, rfl, rfl⟩, fun w => rfl, ?_⟩
  intro s version h s2 hv hEq
  have hb : (version == 4) = false := by simpa using hv
  simp only [ID3FrameHeader.new_from_byte_reader, hb, frameFlagsOf,
    Bool.false_eq_true, if_false,
    show ∀ u, (ID3FrameHeaderFlagsV3.from_bits_truncate
        u).into.data_length_indicator = false from fun u => rfl] at hEq
  by_cases hz : ((read_bytes s 4).1.getD 0 0 == 0) = true
  · rw [if_pos hz] at hEq
    cases hseek : seekCurrent (read_bytes s 4).2 (-4) with
    | error e => simp [hseek] at hEq
    | ok s5 => simp [hseek] at hEq
  · rw [if_neg hz] at hEq
    by_cases hcp : (ID3FrameHeaderFlagsV3.from_bits_truncate
        (read_u16 (read_u32 (read_bytes s 4).2).2).1).into.compressed = true
    · rw [if_pos hcp] at hEq
      exact absurd hEq (by simp)
    · rw [if_neg hcp] at hEq
      by_cases hen : (ID3FrameHeaderFlagsV3.from_bits_truncate
          (read_u16 (read_u32 (read_bytes s 4).2).2).1).into.encrypted = true
      · rw [if_pos hen] at hEq
        exact absurd hEq (by simp)
      · rw [if_neg hen] at hEq
        simp only [PResult.ok.injEq, Prod.mk.injEq, Option.some.injEq] at hEq
        obtain ⟨hh, -⟩ := hEq
        subst hh
        exact ⟨rfl, rfl⟩

/-- Witness for C6: the v2.3 word with only bit 7 set (value 128) normalizes
to a set whose Compressed flag is on, matching the v2.4 word with only bit 3
set (value 8); and a concrete v2.3 frame header decode carries no
data-length indicator. -/
theorem c6_v3_flag_translation_witness :
    (ID3FrameHeaderFlagsV3.from_bits_truncate 128).into.compressed =
        Nat.testBit 128 7 ∧
    (ID3FrameHeaderFlags.from_bits_truncate 8).compressed = Nat.testBit 8 3 ∧
    (3 : Nat) ≠ 4 ∧
    ID3FrameHeader.new_from_byte_reader
      ⟨[1, 0, 0, 0, 0, 0, 1, 2, 0, 0], 0⟩ 3 =
      .ok (some ⟨[1, 0, 0, 0], 258, 10, none, none, .empty⟩,
           ⟨[1, 0, 0, 0, 0, 0, 1, 2, 0, 0], 10⟩) ∧
    (⟨[1, 0, 0, 0], 258, 10, none, none, .empty⟩ :
        ID3FrameHeader).uncompressed_body_size = none :=
  ⟨(c6_v3_flag_translation.1 128).2.2.2.1, c6_v3_flag_translation.2.1 8,
   by decide, by rfl,
   (c6_v3_flag_translation.2.2 ⟨[1, 0, 0, 0, 0, 0, 1, 2, 0, 0], 0⟩ 3
      ⟨[1, 0, 0, 0], 258, 10, none, none, .empty⟩
      ⟨[1, 0, 0, 0, 0, 0, 1, 2, 0, 0], 10⟩ (by decide) (by rfl)).1⟩
